import Mathlib

/-!
# Verification of the `mebula` dict-filter engine

Shallow embedding of `src/mebula/dict_filter.py`: the filter-expression
evaluator (`FilterDict` transformer and its helpers) that decides whether a
nested string-keyed record matches a parsed filter expression.

Modelling conventions:
* Python record values are `Value`: strings, ints, bools and nested mappings
  (mappings are association lists with unique keys, as Python dicts).
* The literal of a comparison is a lark `Token`: a kind (`NUMBER`,
  `CHARACTER_SEQUENCE` or `STRING`) together with its text.  At the Python
  level a token is a `str` subclass, so comparisons see only its text.
* Fallible Python code becomes `Except Err _`; `Err` enumerates the exception
  classes the evaluator can produce (`KeyError`, `TypeError`,
  `AttributeError`, `NotImplementedError`, `SyntaxError`).
* Python string primitives (`str.split`, `str.endswith`, slicing `[1:-1]`,
  `key.split(".")`) are re-implemented structurally over `List Char` so that
  every definition reduces in the kernel.
* The regular-expression operators `~` / `!~` delegate to Python's `re`
  module and are outside the embedding; no claim below quantifies over their
  semantics.
* The lark parser itself is not embedded.  Concrete filter strings appearing
  in claims are translated to their parse trees by hand, following the
  grammar in `create_parser`; each such constant records the string it is the
  parse of.
-/

deriving instance DecidableEq for Except

namespace Mebula

/-- A Python value stored in a record: scalar or nested string-keyed mapping.
Mappings are association lists (Python dicts have unique keys). -/
inductive Value where
  | str (s : String)
  | int (n : Int)
  | bool (b : Bool)
  | map (entries : List (String × Value))

/-- The exception classes the evaluator can raise.  `synErr` models Python's
`SyntaxError`, `notImplErr` models `NotImplementedError`; `keyError`,
`typeError` and `attributeError` model the builtin lookup/comparison
exceptions. -/
inductive Err where
  | keyError
  | typeError
  | attributeError
  | notImplErr (msg : String)
  | synErr (msg : String)
  deriving DecidableEq, Repr

/-- The kind of a lark token produced for the `_value` grammar rule. -/
inductive TokKind where
  | number
  | characterSequence
  | string
  deriving DecidableEq, Repr

/-- A lark token: kind plus text.  At the Python level this is a `str`
subclass, so every comparison uses `text`. -/
structure Tok where
  kind : TokKind
  text : String
  deriving DecidableEq, Repr

/-- The `VALUE_COMPARATOR` operators handled by `FilterDict.compare`
(the regex operators `~` / `!~` are outside the embedding). -/
inductive CompOp where
  | colon
  | lt
  | le
  | eq
  | ne
  | ge
  | gt
  deriving DecidableEq, Repr

/-- The `LIST_COMPARATOR` operators of `FilterDict.compare_list`:
`:(` and `=(`. -/
inductive ListOp where
  | colonList
  | eqList
  deriving DecidableEq, Repr

/-- A binary logical operator token tree: `AND`, `OR` (a bare `WS_INLINE`
separator is parsed as `and` by the grammar). -/
inductive BinOp where
  | andOp
  | orOp
  deriving DecidableEq, Repr, BEq

mutual

/-- Parse tree of a filter expression, mirroring the `term`,
`logical_unary` and `logical_binary` rules of the grammar. -/
inductive Expr where
  | compareE (key : String) (op : CompOp) (value : Tok)
  | compareListE (key : String) (op : ListOp) (items : List Tok)
  | isDefinedE (key : String)
  | notDefinedE (key : String)
  | logicalUnaryE (operand : Expr)
  | logicalBinaryE (first : Expr) (rest : BinChain)

/-- The tail of a flat `logical_binary` node: alternating operator tokens and
operand expressions (`tree[1::2]` interleaved with `tree[0::2]`). -/
inductive BinChain where
  | nil
  | cons (op : BinOp) (operand : Expr) (rest : BinChain)

end

/-! ## Python string primitives -/

/-- Python's notion of whitespace used by `str.split()` with no argument. -/
def pyIsSpace (c : Char) : Bool :=
  c == ' ' || c == '\t' || c == '\n' || c == '\r' || c == '\x0b' || c == '\x0c'

/-- Accumulating worker for `pySplit`: `acc` holds the current word reversed. -/
def pyWordsAux : List Char → List Char → List String
  | acc, [] => if acc.isEmpty then [] else [String.mk acc.reverse]
  | acc, c :: rest =>
    if pyIsSpace c then
      if acc.isEmpty then pyWordsAux [] rest
      else String.mk acc.reverse :: pyWordsAux [] rest
    else pyWordsAux (c :: acc) rest

/-- Python `s.split()`: split on runs of whitespace, discarding empties. -/
def pySplit (s : String) : List String :=
  pyWordsAux [] s.data

/-- Python `s.split(sep)` for a one-character separator: keeps empty pieces,
and `"".split(sep) == [""]`. -/
def pySepSplit (sep : Char) : List Char → List String
  | [] => [""]
  | c :: rest =>
    match pySepSplit sep rest, c == sep with
    | tail, true => "" :: tail
    | [], false => [String.mk [c]]
    | t :: ts, false => String.mk (c :: t.data) :: ts

/-- Python `key.split(".")` on the dotted key of a term. -/
def pyDotSplit (s : String) : List String :=
  pySepSplit '.' s.data

/-- Python `s.endswith("*")`. -/
def endsWithStar (s : String) : Bool :=
  match s.data.getLast? with
  | some c => c == '*'
  | none => false

/-- Python slicing `s[1:-1]`: drop the first and the last character. -/
def stripEnds (s : String) : String :=
  String.mk ((s.data.drop 1).dropLast)

/-! ## Python comparison semantics

`operator.eq` etc. applied to `(record value, literal text)`, with Python's
cross-type behaviour: `==` between a non-`str` value and a `str` is `False`;
`<`/`<=`/`>`/`>=` between a non-`str` value and a `str` raise `TypeError`;
`str` against `str` compares lexicographically by code point. -/

/-- Python `true_value == check` where `check` is a `str`. -/
def pyEq (true_value : Value) (check : String) : Bool :=
  match true_value with
  | .str s => s == check
  | .int _ => false
  | .bool _ => false
  | .map _ => false

/-- Python `true_value < check` where `check` is a `str`. -/
def pyLt (true_value : Value) (check : String) : Except Err Bool :=
  match true_value with
  | .str s => .ok (decide (s < check))
  | _ => .error .typeError

/-- Python `true_value <= check` where `check` is a `str`. -/
def pyLe (true_value : Value) (check : String) : Except Err Bool :=
  match true_value with
  | .str s => .ok (decide (s < check) || s == check)
  | _ => .error .typeError

/-- Python `true_value > check` where `check` is a `str`. -/
def pyGt (true_value : Value) (check : String) : Except Err Bool :=
  match true_value with
  | .str s => .ok (decide (check < s))
  | _ => .error .typeError

/-- Python `true_value >= check` where `check` is a `str`. -/
def pyGe (true_value : Value) (check : String) : Except Err Bool :=
  match true_value with
  | .str s => .ok (decide (check < s) || s == check)
  | _ => .error .typeError

namespace FilterDict

/-- `FilterDict._pattern_match(true_value, check_value)`: raise
`NotImplementedError` when the literal ends in `*`; otherwise
`check_value in true_value.split()`.  Calling `.split()` on a non-`str`
record value raises `AttributeError`. -/
def pattern_match (true_value : Value) (check_value : String) : Except Err Bool :=
  if endsWithStar check_value then
    .error (.notImplErr "Pattern prefix matching not implemented")
  else
    match true_value with
    | .str s => .ok ((pySplit s).contains check_value)
    | _ => .error .attributeError

/-- The loop body of `FilterDict._key_value`: successive `true_value[seg]`
lookups.  A missing key in a mapping raises `KeyError`; indexing a
non-mapping with a string raises `TypeError`. -/
def key_walk : Value → List String → Except Err Value
  | v, [] => .ok v
  | .map entries, k :: ks =>
    match entries.lookup k with
    | some v => key_walk v ks
    | none => .error .keyError
  | .str _, _ :: _ => .error .typeError
  | .int _, _ :: _ => .error .typeError
  | .bool _, _ :: _ => .error .typeError

/-- `FilterDict._key_value(key)`: split the dotted key on `.` and walk the
instance. -/
def key_value (instance_ : List (String × Value)) (key : String) : Except Err Value :=
  key_walk (.map instance_) (pyDotSplit key)

/-- The token text actually compared by `FilterDict.compare`: for a `STRING`
token the surrounding quote characters are stripped (`value[1:-1]`),
otherwise the raw text is used. -/
def effText (value : Tok) : String :=
  if value.kind == TokKind.string then stripEnds value.text else value.text

/-- The `operator_f` lookup table of `FilterDict.compare`, applied to
`(true_value, check)`. -/
def applyOp (op : CompOp) (true_value : Value) (check : String) : Except Err Bool :=
  match op with
  | .colon => pattern_match true_value check
  | .lt => pyLt true_value check
  | .le => pyLe true_value check
  | .eq => .ok (pyEq true_value check)
  | .ne => .ok (!pyEq true_value check)
  | .ge => pyGe true_value check
  | .gt => pyGt true_value check

/-- `FilterDict.compare`: resolve the key (a `KeyError` anywhere in the walk
returns `False`; any other exception propagates), strip quotes from a
`STRING` literal, then apply the operator. -/
def compare (instance_ : List (String × Value)) (key : String) (operator_name : CompOp)
    (value : Tok) : Except Err Bool :=
  match key_value instance_ key with
  | .error .keyError => .ok false
  | .error e => .error e
  | .ok true_value => applyOp operator_name true_value (effText value)

/-- Python's `any(f v for v in vs)` over a generator of fallible checks:
stops at the first `True` or the first raised exception. -/
def anyExcept (f : String → Except Err Bool) : List String → Except Err Bool
  | [] => .ok false
  | v :: vs =>
    match f v with
    | .error e => .error e
    | .ok true => .ok true
    | .ok false => anyExcept f vs

/-- `FilterDict.compare_list`: resolve the key as in `compare`; the candidate
texts are `str(v)` of the raw tokens (no quote stripping); `:( ` uses
`_pattern_match` and `=(` uses `operator.eq`, combined with `any`. -/
def compare_list (instance_ : List (String × Value)) (key : String)
    (operator_name : ListOp) (list_items : List Tok) : Except Err Bool :=
  match key_value instance_ key with
  | .error .keyError => .ok false
  | .error e => .error e
  | .ok true_value =>
    let check_values := list_items.map (fun t => t.text)
    match operator_name with
    | .colonList => anyExcept (fun v => pattern_match true_value v) check_values
    | .eqList => anyExcept (fun v => .ok (pyEq true_value v)) check_values

/-- The walk performed by `FilterDict.is_defined`'s own loop
(`for key in dotted_key_name.split("."): d = d[key]`). -/
def def_walk : Value → List String → Except Err Unit
  | _, [] => .ok ()
  | .map entries, k :: ks =>
    match entries.lookup k with
    | some v => def_walk v ks
    | none => .error .keyError
  | .str _, _ :: _ => .error .typeError
  | .int _, _ :: _ => .error .typeError
  | .bool _, _ :: _ => .error .typeError

/-- `FilterDict.is_defined`: walk the dotted key, catching `KeyError` as
`False`; success returns `True`; other exceptions propagate. -/
def is_defined (dotted_key_name : String) (instance_ : List (String × Value)) :
    Except Err Bool :=
  match def_walk (.map instance_) (pyDotSplit dotted_key_name) with
  | .ok () => .ok true
  | .error .keyError => .ok false
  | .error e => .error e

/-- `FilterDict.not_defined`: `not self.is_defined(...)` (an exception from
`is_defined` propagates). -/
def not_defined (dotted_key_name : String) (instance_ : List (String × Value)) :
    Except Err Bool :=
  (is_defined dotted_key_name instance_).map (fun b => !b)

/-- `FilterDict.logical_unary`: the grammar only produces the `not` operator
tree, whose result is negated (the non-`not` branch raising
`NotImplementedError` is unreachable). -/
def logical_unary (data : Bool) : Except Err Bool :=
  .ok (!data)

/-- `FilterDict.logical_binary`: `data = tree[0::2]`, `operators = tree[1::2]`;
mixed `AND`/`OR` raises `SyntaxError("Ambiguous binary operators")`, uniform
`AND` conjoins, uniform `OR` disjoins; the final `raise NotImplementedError`
of the source is unreachable. -/
def logical_binary (first : Bool) (rest : List (BinOp × Bool)) : Except Err Bool :=
  let data : List Bool := first :: rest.map Prod.snd
  let operators : List BinOp := rest.map Prod.fst
  let all_and := operators.all (fun t => t == BinOp.andOp)
  let all_or := operators.all (fun t => t == BinOp.orOp)
  if !(all_and || all_or) then .error (.synErr "Ambiguous binary operators")
  else if all_and then .ok (data.all id)
  else if all_or then .ok (data.any id)
  else .error (.notImplErr "Boolean operator not implmented")

mutual

/-- Bottom-up evaluation of a parse tree against an instance, as performed by
`FilterDict(dictionary).transform(p)`: children are transformed left to
right before their parent's callback runs, and the first exception aborts
the whole transform (re-raised by `match_dict` as the original exception). -/
def eval (instance_ : List (String × Value)) : Expr → Except Err Bool
  | .compareE key op value => compare instance_ key op value
  | .compareListE key op items => compare_list instance_ key op items
  | .isDefinedE key => is_defined key instance_
  | .notDefinedE key => not_defined key instance_
  | .logicalUnaryE operand =>
    match eval instance_ operand with
    | .error e => .error e
    | .ok b => logical_unary b
  | .logicalBinaryE first rest =>
    match eval instance_ first with
    | .error e => .error e
    | .ok b =>
      match evalChain instance_ rest with
      | .error e => .error e
      | .ok l => logical_binary b l

/-- Evaluate the tail of a `logical_binary` node, left to right, collecting
`(operator, operand result)` pairs; the first exception aborts. -/
def evalChain (instance_ : List (String × Value)) : BinChain → Except Err (List (BinOp × Bool))
  | .nil => .ok []
  | .cons op operand rest =>
    match eval instance_ operand with
    | .error e => .error e
    | .ok b =>
      match evalChain instance_ rest with
      | .error e => .error e
      | .ok l => .ok ((op, b) :: l)

end

end FilterDict

/-! ## Concrete filter strings of the specification

Each constant is the parse tree of the recorded filter string under the
grammar of `create_parser` (the lark parser itself is not embedded): bare
values of letters parse as `CHARACTER_SEQUENCE`, digit values as `NUMBER`,
quoted values as `STRING`; a bare whitespace separator between terms parses
as the `and` operator tree. -/

namespace Filters

/-- Parse of `"key=value"`. -/
def keyEqValue : Expr := .compareE "key" .eq ⟨.characterSequence, "value"⟩

/-- Parse of `"key!=value"`. -/
def keyNeValue : Expr := .compareE "key" .ne ⟨.characterSequence, "value"⟩

/-- Parse of `"a.b.c=1"`. -/
def abcEqOne : Expr := .compareE "a.b.c" .eq ⟨.number, "1"⟩

/-- Parse of `"zone:(a,b)"`. -/
def zoneListAB : Expr :=
  .compareListE "zone" .colonList [⟨.characterSequence, "a"⟩, ⟨.characterSequence, "b"⟩]

/-- Parse of `"key:*"`. -/
def keyStar : Expr := .isDefinedE "key"

/-- Parse of `"- key:*"`. -/
def notKeyStar : Expr := .notDefinedE "key"

/-- Parse of `"l1.l2:*"`. -/
def l1l2Star : Expr := .isDefinedE "l1.l2"

/-- Parse of `"a=1 OR a=2 AND b=3"`. -/
def ambiguousMix : Expr :=
  .logicalBinaryE (.compareE "a" .eq ⟨.number, "1"⟩)
    (.cons .orOp (.compareE "a" .eq ⟨.number, "2"⟩)
      (.cons .andOp (.compareE "b" .eq ⟨.number, "3"⟩) .nil))

/-- Parse of `"a=1 OR b:c*"`. -/
def orWildcard : Expr :=
  .logicalBinaryE (.compareE "a" .eq ⟨.number, "1"⟩)
    (.cons .orOp (.compareE "b" .colon ⟨.characterSequence, "c*"⟩) .nil)

/-- Parse of `"a=2 b:c*"` (implicit whitespace-AND). -/
def andWildcard : Expr :=
  .logicalBinaryE (.compareE "a" .eq ⟨.number, "2"⟩)
    (.cons .andOp (.compareE "b" .colon ⟨.characterSequence, "c*"⟩) .nil)

end Filters

/-! ## Helper lemmas -/

namespace FilterDict

/-- A single-segment key resolves by one lookup in the top-level mapping. -/
theorem key_value_single_found {instance_ : List (String × Value)} {k : String} {v : Value}
    (hk : pyDotSplit k = [k]) (h : instance_.lookup k = some v) :
    key_value instance_ k = .ok v := by
  unfold key_value
  rw [hk]
  simp only [key_walk, h]

/-- A single-segment key missing from the top-level mapping raises `KeyError`. -/
theorem key_value_single_missing {instance_ : List (String × Value)} {k : String}
    (hk : pyDotSplit k = [k]) (h : instance_.lookup k = none) :
    key_value instance_ k = .error .keyError := by
  unfold key_value
  rw [hk]
  simp only [key_walk, h]

/-- `compare` with the `=` operator never raises: a resolved value compares
with Python `==` (total), and a missing single-segment key returns `False`. -/
theorem compare_eq_single_total (instance_ : List (String × Value)) (k : String)
    (hk : pyDotSplit k = [k]) (tok : Tok) :
    ∃ b, compare instance_ k .eq tok = .ok b := by
  cases h : instance_.lookup k with
  | some v =>
    refine ⟨pyEq v (effText tok), ?_⟩
    unfold FilterDict.compare
    rw [key_value_single_found hk h]
    rfl
  | none =>
    refine ⟨false, ?_⟩
    unfold FilterDict.compare
    rw [key_value_single_missing hk h]

/-- The walk of `is_defined` is the walk of `_key_value` with the found value
discarded. -/
theorem def_walk_eq_key_walk (ks : List String) (v : Value) :
    def_walk v ks = (key_walk v ks).map (fun _ => ()) := by
  induction ks generalizing v with
  | nil => cases v <;> rfl
  | cons k ks ih =>
    cases v with
    | map entries =>
      cases h : entries.lookup k with
      | some w => simp only [def_walk, key_walk, h]; exact ih w
      | none => simp only [def_walk, key_walk, h]; rfl
    | str s => rfl
    | int n => rfl
    | bool b => rfl

/-- `any` over a list of checks that all return `ok` is `ok` of the boolean
`any`. -/
theorem anyExcept_ok (f : String → Except Err Bool) (g : String → Bool)
    (l : List String) (h : ∀ c ∈ l, f c = .ok (g c)) :
    anyExcept f l = .ok (l.any g) := by
  induction l with
  | nil => rfl
  | cons c cs ih =>
    have hc := h c (List.mem_cons_self c cs)
    cases hgc : g c with
    | true =>
      rw [hgc] at hc
      simp only [anyExcept, hc, List.any_cons, hgc, Bool.true_or]
    | false =>
      rw [hgc] at hc
      simp only [anyExcept, hc, List.any_cons, hgc, Bool.false_or]
      exact ih (fun x hx => h x (List.mem_cons_of_mem c hx))

/-- Boolean `any` is invariant under permutation of the list. -/
theorem any_perm {l l' : List String} (g : String → Bool) (h : l.Perm l') :
    l.any g = l'.any g := by
  cases hl : l.any g with
  | true =>
    rw [List.any_eq_true] at hl
    obtain ⟨x, hx, hgx⟩ := hl
    exact (List.any_eq_true.mpr ⟨x, h.mem_iff.mp hx, hgx⟩).symm
  | false =>
    rw [List.any_eq_false] at hl
    exact (List.any_eq_false.mpr (fun x hx => hl x (h.mem_iff.mpr hx))).symm

/-- With a resolving key, `=(` reduces to a boolean `any` of Python
equalities over the raw candidate texts. -/
theorem compare_list_eqList_any (instance_ : List (String × Value)) (key : String)
    (v : Value) (toks : List Tok) (h : key_value instance_ key = .ok v) :
    compare_list instance_ key .eqList toks
      = .ok ((toks.map Tok.text).any (fun c => pyEq v c)) := by
  unfold compare_list
  rw [h]
  exact anyExcept_ok _ _ _ (fun c _ => rfl)

/-- With a key resolving to a string and wildcard-free candidates, `:(`
reduces to a boolean `any` of whole-token containment checks. -/
theorem compare_list_colonList_any (instance_ : List (String × Value)) (key : String)
    (s : String) (toks : List Tok) (h : key_value instance_ key = .ok (.str s))
    (hw : ∀ t ∈ toks, endsWithStar t.text = false) :
    compare_list instance_ key .colonList toks
      = .ok ((toks.map Tok.text).any (fun c => (pySplit s).contains c)) := by
  unfold compare_list
  rw [h]
  refine anyExcept_ok _ _ _ (fun c hc => ?_)
  obtain ⟨t, ht, rfl⟩ := List.mem_map.mp hc
  unfold pattern_match
  rw [hw t ht]
  simp

end FilterDict

/-! ## Claims -/

open FilterDict

/-- **C1.** For a `LogicalBinary` node: if every interleaved operator is AND,
evaluation returns the conjunction of all operand results; if every operator
is OR, the disjunction; if the operators mix AND and OR, evaluation raises
the `SyntaxError`-class "Ambiguous binary operators" error.  In particular
`match("a=1 OR a=2 AND b=3", record)` raises that error for every record. -/
theorem C1_logical_binary_uniform_or_ambiguous :
    (∀ (b : Bool) (rest : List (BinOp × Bool)),
        (rest.map Prod.fst).all (fun t => t == BinOp.andOp) = true →
        logical_binary b rest = .ok ((b :: rest.map Prod.snd).all id))
    ∧ (∀ (b : Bool) (rest : List (BinOp × Bool)),
        (rest.map Prod.fst).all (fun t => t == BinOp.orOp) = true →
        logical_binary b rest = .ok ((b :: rest.map Prod.snd).any id))
    ∧ (∀ (b : Bool) (rest : List (BinOp × Bool)),
        (rest.map Prod.fst).all (fun t => t == BinOp.andOp) = false →
        (rest.map Prod.fst).all (fun t => t == BinOp.orOp) = false →
        logical_binary b rest = .error (.synErr "Ambiguous binary operators"))
    ∧ (∀ instance_ : List (String × Value),
        eval instance_ Filters.ambiguousMix
          = .error (.synErr "Ambiguous binary operators")) := by
  refine ⟨?_, ?_, ?_, ?_⟩
  · intro b rest h
    simp [logical_binary, h]
  · intro b rest h
    by_cases hand : (rest.map Prod.fst).all (fun t => t == BinOp.andOp) = true
    · have hnil : rest = [] := by
        cases hr : rest with
        | nil => rfl
        | cons p ps =>
          rw [hr] at h hand
          simp only [List.map_cons, List.all_cons, Bool.and_eq_true] at h hand
          cases hp : p.1 with
          | andOp => rw [hp] at h; exact absurd h.1 (by decide)
          | orOp => rw [hp] at hand; exact absurd hand.1 (by decide)
      subst hnil
      cases b <;> rfl
    · rw [Bool.not_eq_true] at hand
      simp [logical_binary, h, hand]
  · intro b rest h1 h2
    simp [logical_binary, h1, h2]
  · intro instance_
    obtain ⟨b1, h1⟩ := compare_eq_single_total instance_ "a" (by decide) ⟨.number, "1"⟩
    obtain ⟨b2, h2⟩ := compare_eq_single_total instance_ "a" (by decide) ⟨.number, "2"⟩
    obtain ⟨b3, h3⟩ := compare_eq_single_total instance_ "b" (by decide) ⟨.number, "3"⟩
    simp only [Filters.ambiguousMix, eval, evalChain, h1, h2, h3]
    rfl

/-- Closed instances of `C1_logical_binary_uniform_or_ambiguous`, discharging
its hypotheses at concrete operator lists. -/
theorem C1_witness :
    logical_binary true [(BinOp.andOp, true), (BinOp.andOp, false)] = .ok false
    ∧ logical_binary false [(BinOp.orOp, true)] = .ok true
    ∧ logical_binary true [(BinOp.orOp, false), (BinOp.andOp, true)]
        = .error (.synErr "Ambiguous binary operators") :=
  ⟨C1_logical_binary_uniform_or_ambiguous.1 true
      [(BinOp.andOp, true), (BinOp.andOp, false)] (by decide),
   C1_logical_binary_uniform_or_ambiguous.2.1 false [(BinOp.orOp, true)] (by decide),
   C1_logical_binary_uniform_or_ambiguous.2.2.1 true
      [(BinOp.orOp, false), (BinOp.andOp, true)] (by decide) (by decide)⟩

/-- **C2.** A dotted-key walk failing with a missing key (`KeyError`) makes
`compare` and `compare_list` return `False` without raising, uniformly for
every comparison operator including `!=`. -/
theorem C2_missing_key_is_false :
    (∀ (instance_ : List (String × Value)) (key : String) (op : CompOp) (tok : Tok),
        key_value instance_ key = .error .keyError →
        FilterDict.compare instance_ key op tok = .ok false)
    ∧ (∀ (instance_ : List (String × Value)) (key : String) (lop : ListOp)
        (toks : List Tok),
        key_value instance_ key = .error .keyError →
        compare_list instance_ key lop toks = .ok false) := by
  constructor
  · intro instance_ key op tok h
    unfold FilterDict.compare
    rw [h]
  · intro instance_ key lop toks h
    unfold compare_list
    rw [h]

/-- Closed instance of `C2_missing_key_is_false` at a concrete record and
key, for the `!=` operator and a `:( ` list. -/
theorem C2_witness :
    FilterDict.compare [("other", Value.str "x")] "key" .ne ⟨.characterSequence, "v"⟩ = .ok false
    ∧ compare_list [("other", Value.str "x")] "key" .colonList
        [⟨.characterSequence, "v"⟩] = .ok false :=
  ⟨C2_missing_key_is_false.1 [("other", Value.str "x")] "key" .ne
      ⟨.characterSequence, "v"⟩ rfl,
   C2_missing_key_is_false.2 [("other", Value.str "x")] "key" .colonList
      [⟨.characterSequence, "v"⟩] rfl⟩

/-- **C3 counterexample.** The claim asserts
`match("a.b.c=1", {"a":{"b":{"c":1}}})` is true via numeric comparison; the
code applies Python `==` between the `int` leaf and the literal string `"1"`,
which is `False`, so the match returns false. -/
theorem C3_counterexample :
    eval [("a", .map [("b", .map [("c", Value.int 1)])])] Filters.abcEqOne = .ok false
    ∧ ¬ (eval [("a", .map [("b", .map [("c", Value.int 1)])])] Filters.abcEqOne
          = .ok true) := by
  decide

/-- **C3 (amended).** `=` applies native Python equality with no numeric
parsing: an `int` leaf `1` never equals the literal `"1"` (match is false);
a string leaf `"1"` equals it (match is true); and a missing leaf yields
false without raising. -/
theorem C3_dotted_key_equality :
    eval [("a", .map [("b", .map [("c", Value.str "1")])])] Filters.abcEqOne = .ok true
    ∧ eval [("a", .map [("b", .map [("c", Value.int 1)])])] Filters.abcEqOne = .ok false
    ∧ eval [("a", .map [("b", Value.map [])])] Filters.abcEqOne = .ok false := by
  decide

/-- **C4.** When the key resolves to a string, `=` returns true iff the
resolved value equals the literal text and `!=` returns the negation;
concretely, `match("key=value", ...)` and `match("key!=value", ...)` behave
as the specification's examples state. -/
theorem C4_equality_examples :
    (∀ (instance_ : List (String × Value)) (key s : String) (tok : Tok),
        key_value instance_ key = .ok (.str s) → tok.kind ≠ TokKind.string →
        FilterDict.compare instance_ key .eq tok = .ok (s == tok.text)
          ∧ FilterDict.compare instance_ key .ne tok = .ok (!(s == tok.text)))
    ∧ eval [("key", .str "value")] Filters.keyEqValue = .ok true
    ∧ eval [("key", .str "other")] Filters.keyEqValue = .ok false
    ∧ eval [("key", .str "other")] Filters.keyNeValue = .ok true := by
  refine ⟨?_, by decide, by decide, by decide⟩
  intro instance_ key s tok h hkind
  have heff : effText tok = tok.text := by
    unfold effText
    simp [hkind]
  constructor
  · unfold FilterDict.compare
    rw [h]
    show applyOp .eq (Value.str s) (effText tok) = _
    rw [heff]
    rfl
  · unfold FilterDict.compare
    rw [h]
    show applyOp .ne (Value.str s) (effText tok) = _
    rw [heff]
    rfl

/-- `is_defined` succeeds exactly when the `_key_value` walk of `compare`
resolves the same dotted key. -/
theorem is_defined_eq_ok_true_iff (key : String) (instance_ : List (String × Value)) :
    is_defined key instance_ = .ok true ↔ ∃ v, key_value instance_ key = .ok v := by
  unfold is_defined key_value
  rw [def_walk_eq_key_walk]
  cases h : key_walk (.map instance_) (pyDotSplit key) with
  | ok v => simp [Except.map]
  | error e => cases e <;> simp [Except.map]

/-- **C5 counterexample.** The claim's "resolved value treated as a string"
fails for a non-string resolved value: `match("a:5", {"a": 5})` calls
`.split()` on the `int` and raises `AttributeError` instead of returning
true. -/
theorem C5_counterexample :
    FilterDict.compare [("a", Value.int 5)] "a" .colon ⟨.number, "5"⟩
        = .error .attributeError
    ∧ ¬ (FilterDict.compare [("a", Value.int 5)] "a" .colon ⟨.number, "5"⟩
          = .ok true) := by
  decide

/-- **C5 (amended).** For `:` with a resolving key: a literal ending in `*`
raises the `NotImplemented`-class error, and only when the comparison is
actually evaluated (a missing key returns false before the wildcard is
inspected); otherwise, when the resolved value is a string, the result is
true iff the literal equals one of its whitespace-separated tokens (a
non-string resolved value raises `AttributeError`). -/
theorem C5_pattern_containment :
    (∀ (instance_ : List (String × Value)) (key : String) (v : Value) (tok : Tok),
        key_value instance_ key = .ok v → endsWithStar (effText tok) = true →
        FilterDict.compare instance_ key .colon tok
          = .error (.notImplErr "Pattern prefix matching not implemented"))
    ∧ (∀ (instance_ : List (String × Value)) (key : String) (tok : Tok),
        key_value instance_ key = .error .keyError →
        FilterDict.compare instance_ key .colon tok = .ok false)
    ∧ (∀ (instance_ : List (String × Value)) (key s : String) (tok : Tok),
        key_value instance_ key = .ok (.str s) → endsWithStar (effText tok) = false →
        FilterDict.compare instance_ key .colon tok
          = .ok ((pySplit s).contains (effText tok))) := by
  refine ⟨?_, ?_, ?_⟩
  · intro instance_ key v tok h hw
    unfold FilterDict.compare
    rw [h]
    show pattern_match v (effText tok) = _
    unfold pattern_match
    rw [hw]
    simp
  · intro instance_ key tok h
    unfold FilterDict.compare
    rw [h]
  · intro instance_ key s tok h hw
    unfold FilterDict.compare
    rw [h]
    show pattern_match (.str s) (effText tok) = _
    unfold pattern_match
    rw [hw]
    simp

/-- Closed instances of `C5_pattern_containment`: a wildcard literal raises
on an existing key, returns false on a missing key, and a wildcard-free
literal does whole-token containment. -/
theorem C5_witness :
    FilterDict.compare [("k", Value.str "x")] "k" .colon ⟨.characterSequence, "b*"⟩
        = .error (.notImplErr "Pattern prefix matching not implemented")
    ∧ FilterDict.compare [] "k" .colon ⟨.characterSequence, "b*"⟩ = .ok false
    ∧ FilterDict.compare [("k", Value.str "a b")] "k" .colon ⟨.characterSequence, "a"⟩
        = .ok true :=
  ⟨C5_pattern_containment.1 [("k", Value.str "x")] "k" (Value.str "x")
      ⟨.characterSequence, "b*"⟩ rfl rfl,
   C5_pattern_containment.2.1 [] "k" ⟨.characterSequence, "b*"⟩ rfl,
   C5_pattern_containment.2.2 [("k", Value.str "a b")] "k" "a b"
      ⟨.characterSequence, "a"⟩ rfl rfl⟩

/-- **C6 counterexample.** With a resolving key, a core comparison operator
can raise: `match("a<2", {"a": 1})` applies Python `<` between an `int` and a
`str` and raises `TypeError` instead of returning a boolean. -/
theorem C6_counterexample :
    FilterDict.compare [("a", Value.int 1)] "a" .lt ⟨.number, "2"⟩ = .error .typeError
    ∧ ¬ ∃ b, FilterDict.compare [("a", Value.int 1)] "a" .lt ⟨.number, "2"⟩
          = .ok b := by
  constructor
  · decide
  · rintro ⟨b, hb⟩
    rw [show FilterDict.compare [("a", Value.int 1)] "a" .lt ⟨.number, "2"⟩
          = .error .typeError from rfl] at hb
    exact Except.noConfusion hb

/-- **C6 (amended).** For every `Compare` or `CompareList` term whose key
resolves to a *string* value, with wildcard-free literals for the
containment operators, evaluation returns a boolean and never raises. -/
theorem C6_single_term_totality :
    (∀ (instance_ : List (String × Value)) (key s : String) (op : CompOp) (tok : Tok),
        key_value instance_ key = .ok (.str s) →
        (op = .colon → endsWithStar (effText tok) = false) →
        ∃ b, FilterDict.compare instance_ key op tok = .ok b)
    ∧ (∀ (instance_ : List (String × Value)) (key s : String) (lop : ListOp)
        (toks : List Tok),
        key_value instance_ key = .ok (.str s) →
        (lop = .colonList → ∀ t ∈ toks, endsWithStar t.text = false) →
        ∃ b, compare_list instance_ key lop toks = .ok b) := by
  constructor
  · intro instance_ key s op tok h hw
    unfold FilterDict.compare
    rw [h]
    cases op with
    | colon =>
      show ∃ b, pattern_match (.str s) (effText tok) = .ok b
      unfold pattern_match
      rw [hw rfl]
      exact ⟨_, rfl⟩
    | lt => exact ⟨_, rfl⟩
    | le => exact ⟨_, rfl⟩
    | eq => exact ⟨_, rfl⟩
    | ne => exact ⟨_, rfl⟩
    | ge => exact ⟨_, rfl⟩
    | gt => exact ⟨_, rfl⟩
  · intro instance_ key s lop toks h hw
    cases lop with
    | colonList => exact ⟨_, compare_list_colonList_any instance_ key s toks h (hw rfl)⟩
    | eqList => exact ⟨_, compare_list_eqList_any instance_ key (.str s) toks h⟩

/-- Closed instances of `C6_single_term_totality` at string-valued records:
`<` between strings and a `:( ` list both return a boolean. -/
theorem C6_witness :
    (∃ b, FilterDict.compare [("k", Value.str "a")] "k" .lt ⟨.characterSequence, "b"⟩
        = .ok b)
    ∧ (∃ b, compare_list [("k", Value.str "a")] "k" .colonList
        [⟨.characterSequence, "a"⟩] = .ok b) :=
  ⟨C6_single_term_totality.1 [("k", Value.str "a")] "k" "a" .lt
      ⟨.characterSequence, "b"⟩ rfl (fun hcolon => absurd hcolon (by decide)),
   C6_single_term_totality.2 [("k", Value.str "a")] "k" "a" .colonList
      [⟨.characterSequence, "a"⟩] rfl (fun _ => by decide)⟩

/-- **C7.** `match("key:*", {})` is false and `match("- key:*", {})` is true;
`is_defined` performs the same dotted-key walk as `compare`'s `_key_value`
(multi-segment keys included), succeeding exactly when every segment lookup
succeeds, and `not_defined` is its pointwise boolean negation. -/
theorem C7_is_defined_walk :
    (∀ (key : String) (instance_ : List (String × Value)),
        is_defined key instance_ = .ok true ↔ ∃ v, key_value instance_ key = .ok v)
    ∧ (∀ (key : String) (instance_ : List (String × Value)),
        not_defined key instance_ = (is_defined key instance_).map (fun b => !b))
    ∧ eval [] Filters.keyStar = .ok false
    ∧ eval [] Filters.notKeyStar = .ok true
    ∧ eval [("name", .str "instance"), ("l1", .map [("l2", .str "foo")])]
        Filters.l1l2Star = .ok true :=
  ⟨fun key instance_ => is_defined_eq_ok_true_iff key instance_,
   fun _ _ => rfl, by decide, by decide, by decide⟩

/-- Closed instance of `C7_is_defined_walk`: the multi-segment key `l1.l2`
is defined on a nested record, by the equivalence with the `compare` walk. -/
theorem C7_witness :
    is_defined "l1.l2" [("l1", Value.map [("l2", Value.str "foo")])] = .ok true :=
  (C7_is_defined_walk.1 "l1.l2" [("l1", Value.map [("l2", Value.str "foo")])]).mpr
    ⟨Value.str "foo", rfl⟩

/-- **C8 counterexample.** Permuting the candidate list of `:( ` can change
the result: with `{"zone":"a"}`, `zone:(a,b*)` short-circuits at the first
matching candidate and returns true, while `zone:(b*,a)` evaluates the
wildcard candidate first and raises. -/
theorem C8_counterexample :
    compare_list [("zone", Value.str "a")] "zone" .colonList
        [⟨.characterSequence, "a"⟩, ⟨.characterSequence, "b*"⟩] = .ok true
    ∧ compare_list [("zone", Value.str "a")] "zone" .colonList
        [⟨.characterSequence, "b*"⟩, ⟨.characterSequence, "a"⟩]
        = .error (.notImplErr "Pattern prefix matching not implemented") := by
  decide

/-- **C8 (amended).** The concrete `zone:(a,b)` examples hold; with a
resolving key, a `CompareList` node is true iff some candidate matches
(equality for `=( `, whole-token containment for `:( ` on string values),
and permuting the candidates never changes the result provided no candidate
ends in `*` (for `=( `, unconditionally). -/
theorem C8_compare_list_any :
    eval [("zone", .str "a")] Filters.zoneListAB = .ok true
    ∧ eval [("zone", .str "c")] Filters.zoneListAB = .ok false
    ∧ (∀ (instance_ : List (String × Value)) (key : String) (v : Value)
        (toks : List Tok),
        key_value instance_ key = .ok v →
        compare_list instance_ key .eqList toks
          = .ok ((toks.map Tok.text).any (fun c => pyEq v c)))
    ∧ (∀ (instance_ : List (String × Value)) (key : String) (v : Value)
        (toks toks' : List Tok),
        key_value instance_ key = .ok v → toks.Perm toks' →
        compare_list instance_ key .eqList toks
          = compare_list instance_ key .eqList toks')
    ∧ (∀ (instance_ : List (String × Value)) (key s : String) (toks : List Tok),
        key_value instance_ key = .ok (Value.str s) →
        (∀ t ∈ toks, endsWithStar t.text = false) →
        compare_list instance_ key .colonList toks
          = .ok ((toks.map Tok.text).any (fun c => (pySplit s).contains c)))
    ∧ (∀ (instance_ : List (String × Value)) (key s : String)
        (toks toks' : List Tok),
        key_value instance_ key = .ok (Value.str s) →
        (∀ t ∈ toks, endsWithStar t.text = false) → toks.Perm toks' →
        compare_list instance_ key .colonList toks
          = compare_list instance_ key .colonList toks') := by
  refine ⟨by decide, by decide, ?_, ?_, ?_, ?_⟩
  · intro instance_ key v toks h
    exact compare_list_eqList_any instance_ key v toks h
  · intro instance_ key v toks toks' h hp
    rw [compare_list_eqList_any instance_ key v toks h,
      compare_list_eqList_any instance_ key v toks' h]
    exact congrArg Except.ok (any_perm _ (hp.map Tok.text))
  · intro instance_ key s toks h hw
    exact compare_list_colonList_any instance_ key s toks h hw
  · intro instance_ key s toks toks' h hw hp
    rw [compare_list_colonList_any instance_ key s toks h hw,
      compare_list_colonList_any instance_ key s toks' h
        (fun t ht => hw t (hp.mem_iff.mpr ht))]
    exact congrArg Except.ok (any_perm _ (hp.map Tok.text))

/-- Closed instance of `C8_compare_list_any`: swapping the two candidates of
a wildcard-free `=( ` list leaves the result unchanged. -/
theorem C8_witness :
    compare_list [("zone", Value.str "a")] "zone" .eqList
        [⟨.characterSequence, "b"⟩, ⟨.characterSequence, "a"⟩]
      = compare_list [("zone", Value.str "a")] "zone" .eqList
        [⟨.characterSequence, "a"⟩, ⟨.characterSequence, "b"⟩] :=
  C8_compare_list_any.2.2.2.1 [("zone", Value.str "a")] "zone" (Value.str "a")
    [⟨.characterSequence, "b"⟩, ⟨.characterSequence, "a"⟩]
    [⟨.characterSequence, "a"⟩, ⟨.characterSequence, "b"⟩] rfl
    (List.Perm.swap (⟨.characterSequence, "a"⟩ : Tok) ⟨.characterSequence, "b"⟩ [])

/-- **C9 counterexample.** Quote stripping applies only to `Compare`:
`zone=('a')` keeps the quotes in the candidate (`str(v)`), so
`match("zone=('a')", {"zone":"a"})` is false even though
`match("zone='a'", {"zone":"a"})` is true. -/
theorem C9_counterexample :
    FilterDict.compare [("zone", Value.str "a")] "zone" .eq ⟨.string, "'a'"⟩ = .ok true
    ∧ compare_list [("zone", Value.str "a")] "zone" .eqList [⟨.string, "'a'"⟩]
        = .ok false
    ∧ ¬ (compare_list [("zone", Value.str "a")] "zone" .eqList [⟨.string, "'a'"⟩]
          = .ok true) := by
  decide

/-- **C9 (amended).** For a `Compare` term a quoted literal is compared with
its surrounding quote characters stripped and the inner content kept
literally (internal whitespace preserved, escaped quotes left verbatim, no
escapes interpreted); for a `CompareList` term the candidates are used
verbatim, quote characters included. -/
theorem C9_quote_stripping :
    (∀ (instance_ : List (String × Value)) (key : String) (op : CompOp)
        (txt : String),
        FilterDict.compare instance_ key op ⟨.string, txt⟩
          = FilterDict.compare instance_ key op ⟨.characterSequence, stripEnds txt⟩)
    ∧ (∀ (instance_ : List (String × Value)) (key : String) (lop : ListOp)
        (toks : List Tok),
        compare_list instance_ key lop toks
          = compare_list instance_ key lop
              (toks.map (fun t => ⟨.characterSequence, t.text⟩)))
    ∧ FilterDict.compare [("k", Value.str "a b")] "k" .eq ⟨.string, "'a b'"⟩ = .ok true
    ∧ FilterDict.compare [("k", Value.str "a \\\"b\\\"")] "k" .eq
        ⟨.string, "\"a \\\"b\\\"\""⟩ = .ok true
    ∧ FilterDict.compare [("k", Value.str "a \"b\"")] "k" .eq
        ⟨.string, "\"a \\\"b\\\"\""⟩ = .ok false := by
  refine ⟨?_, ?_, by decide, by decide, by decide⟩
  · intro instance_ key op txt
    unfold FilterDict.compare
    cases h : key_value instance_ key with
    | ok v => rfl
    | error e => cases e <;> rfl
  · intro instance_ key lop toks
    unfold compare_list
    cases h : key_value instance_ key with
    | ok v =>
      cases lop with
      | colonList =>
        show anyExcept _ (toks.map _) = anyExcept _ ((toks.map _).map _)
        rw [List.map_map]
        rfl
      | eqList =>
        show anyExcept _ (toks.map _) = anyExcept _ ((toks.map _).map _)
        rw [List.map_map]
        rfl
    | error e => cases e <;> rfl

/-- **C10.** Evaluation is bottom-up and does not short-circuit: every
operand of a logical binary node is evaluated before the combining step, so
an operand's error propagates even when another operand's value already
determines the boolean result (`a=1` is already true under the record, OR
would short-circuit; `a=2` is already false, AND would short-circuit — yet
the wildcard `NotImplementedError` surfaces in both). -/
theorem C10_no_short_circuit :
    (∀ (instance_ : List (String × Value)) (first : Expr) (rest : BinChain)
        (b : Bool) (e : Err),
        eval instance_ first = .ok b → evalChain instance_ rest = .error e →
        eval instance_ (.logicalBinaryE first rest) = .error e)
    ∧ eval [("a", .str "1"), ("b", .str "x")] Filters.orWildcard
        = .error (.notImplErr "Pattern prefix matching not implemented")
    ∧ eval [("a", .str "1"), ("b", .str "x")] (.compareE "a" .eq ⟨.number, "1"⟩)
        = .ok true
    ∧ eval [("a", .str "1"), ("b", .str "x")] Filters.andWildcard
        = .error (.notImplErr "Pattern prefix matching not implemented")
    ∧ eval [("a", .str "1"), ("b", .str "x")] (.compareE "a" .eq ⟨.number, "2"⟩)
        = .ok false := by
  refine ⟨?_, by decide, by decide, by decide, by decide⟩
  intro instance_ first rest b e h1 h2
  simp only [eval, h1, h2]

/-- Closed instance of `C10_no_short_circuit`: the parse of `"a=1 OR b:c*"`
raises even though its first operand is already true. -/
theorem C10_witness :
    eval [("a", Value.str "1"), ("b", Value.str "x")] Filters.orWildcard
      = .error (.notImplErr "Pattern prefix matching not implemented") :=
  C10_no_short_circuit.1 [("a", Value.str "1"), ("b", Value.str "x")]
    (.compareE "a" .eq ⟨.number, "1"⟩)
    (.cons .orOp (.compareE "b" .colon ⟨.characterSequence, "c*"⟩) .nil)
    true (.notImplErr "Pattern prefix matching not implemented") rfl rfl

/-- Closed instance of `C4_equality_examples`, discharging its hypotheses at
a concrete record, key and bare token. -/
theorem C4_witness :
    FilterDict.compare [("key", Value.str "value")] "key" .eq
        ⟨.characterSequence, "value"⟩ = .ok true
    ∧ FilterDict.compare [("key", Value.str "value")] "key" .ne
        ⟨.characterSequence, "value"⟩ = .ok false :=
  C4_equality_examples.1 [("key", Value.str "value")] "key" "value"
    ⟨.characterSequence, "value"⟩ rfl (by decide)

end Mebula

